import Mathlib

/-!
Shallow embedding of the analytics aggregation engine of the Umuganda
application (src/src/domain/services/AnalyticsEngine.ts), together with
proofs about its behaviour.

Modelling conventions:
* Timestamps (JS `Date` values, compared by Prisma with `gte`/`lte`) are
  integers.
* JS numbers used for counts are `Nat`; derived ratios (percentages and
  engagement scores, computed in JS floating point on small integer inputs)
  are modelled exactly in `ℚ`, with `Math.round` modelled as
  `fun q => (q + 1/2).floor` (round half toward positive infinity, which is
  what `Math.round` does).
* A Prisma record store is a `Store` value: flat lists of posts, comments,
  reactions, reposts and the three location levels, with foreign keys. A
  JS `Map` built by insertion is an association list in insertion order
  (`tally` below), updating the first matching key exactly as `Map.set`
  does on its unique-key entry list.
* JS `Array.prototype.sort` with comparator `(a, b) => b.k - a.k` is a
  stable sort under the total preorder `fun a b => b.k ≤ a.k`; the stable
  sort for that preorder is unique, and is modelled by `List.insertionSort`
  (which Mathlib proves stable), keyed by `keyDesc` below.
-/

/-- Activity categories are an enum in the Prisma schema; string identity is
all the engine uses. -/
abbrev ActivityCategory := String

/-- A comment row: belongs to one post, carries its own creation time. -/
structure Comment where
  id : String
  postId : String
  createdAt : Int
deriving DecidableEq, Repr

/-- A reaction row attached to a post. -/
structure Reaction where
  id : String
  postId : String
  createdAt : Int
deriving DecidableEq, Repr

/-- A repost row attached to a post. -/
structure Repost where
  id : String
  postId : String
  createdAt : Int
deriving DecidableEq, Repr

/-- A post row with its category, hashtag list, creation time and the three
location foreign keys. -/
structure Post where
  id : String
  category : ActivityCategory
  hashtags : List String
  createdAt : Int
  cellId : String
  sectorId : String
  districtId : String
deriving DecidableEq, Repr

/-- A location node (cell, sector or district). -/
structure LocationNode where
  id : String
  name : String
deriving DecidableEq, Repr

/-- The record store the engine reads: all tables it queries. -/
structure Store where
  posts : List Post
  comments : List Comment
  reactions : List Reaction
  reposts : List Repost
  cells : List LocationNode
  sectors : List LocationNode
  districts : List LocationNode
deriving DecidableEq, Repr

/-- Prisma filter `createdAt: { gte: a, lte: b }` — inclusive on both ends. -/
def inWindow (a b t : Int) : Bool :=
  a ≤ t && t ≤ b

/-- JS `Math.round`: round half toward positive infinity. -/
def jsRound (q : ℚ) : ℤ :=
  ⌊q + 1 / 2⌋

/-- The percentage expression `Math.round((count / total) * 100)` that the
source repeats in its three category/hashtag statistics helpers; `count` and
`total` are always integer-valued JS numbers there. -/
def pct (count total : Nat) : ℤ :=
  jsRound ((count : ℚ) / (total : ℚ) * 100)

/-- Round to two decimals the way the source does:
`Math.round(x * 100) / 100`. -/
def round2 (q : ℚ) : ℚ :=
  (jsRound (q * 100) : ℚ) / 100

/-- Engagement score from `calculateEngagementScore`: weighted sum
(posts 1, comments 2, reactions 1, reposts 3) divided by `posts || 1`,
rounded to two decimals. -/
def calculateEngagementScore (posts comments reactions reposts : Nat) : ℚ :=
  round2 (((posts : ℚ) * 1 + (comments : ℚ) * 2 + (reactions : ℚ) * 1 +
    (reposts : ℚ) * 3) / ((if posts = 0 then 1 else posts : Nat) : ℚ))

/-- One `map.set(key, (map.get(key) || 0) + 1)` step on the insertion-ordered
entry list of a JS `Map`: increment the entry of the key if present,
otherwise append the key with count 1. -/
def bump {α : Type} [DecidableEq α] : List (α × Nat) → α → List (α × Nat)
  | [], a => [(a, 1)]
  | (k, n) :: m, a => if k = a then (k, n + 1) :: m else (k, n) :: bump m a

/-- Counting loop over a list, producing the entry list of the JS `Map`:
distinct keys in first-encounter order with their occurrence counts. -/
def tally {α : Type} [DecidableEq α] (xs : List α) : List (α × Nat) :=
  xs.foldl bump []

/-- Descending comparison by a numeric key: the JS comparator
`(a, b) => b.key - a.key` orders `x` no later than `y` exactly when
`κ y ≤ κ x`. -/
def keyDesc {α β : Type} [LinearOrder β] (κ : α → β) (x y : α) : Prop :=
  κ y ≤ κ x

instance keyDescDecidable {α β : Type} [LinearOrder β] (κ : α → β) :
    DecidableRel (keyDesc κ) :=
  fun x y => inferInstanceAs (Decidable (κ y ≤ κ x))

instance keyDescTotal {α β : Type} [LinearOrder β] (κ : α → β) :
    IsTotal α (keyDesc κ) :=
  ⟨fun _ _ => le_total _ _⟩

instance keyDescTrans {α β : Type} [LinearOrder β] (κ : α → β) :
    IsTrans α (keyDesc κ) :=
  ⟨fun _ _ _ h h2 => le_trans h2 h⟩

/-- Category statistics record. -/
structure CategoryStats where
  category : ActivityCategory
  count : Nat
  percentage : ℤ
deriving DecidableEq, Repr

/-- Hashtag statistics record. -/
structure HashtagStats where
  hashtag : String
  count : Nat
  percentage : ℤ
deriving DecidableEq, Repr

/-- Location statistics record. -/
structure LocationStats where
  name : String
  id : String
  totalPosts : Nat
  totalEngagement : Nat
  engagementScore : ℚ
  topCategories : List CategoryStats
deriving DecidableEq, Repr

/-- National totals block of the summary. -/
structure National where
  totalPosts : Nat
  totalComments : Nat
  totalReactions : Nat
  totalReposts : Nat
  totalEngagement : Nat
deriving DecidableEq, Repr

/-- The full analytics summary returned by `generateSummary`. -/
structure AnalyticsSummary where
  periodStart : Int
  periodEnd : Int
  national : National
  topCategories : List CategoryStats
  topHashtags : List HashtagStats
  cellStats : List LocationStats
  sectorStats : List LocationStats
  districtStats : List LocationStats
  lastUpdated : Int
deriving DecidableEq, Repr

/-- Posts whose `createdAt` lies in the window — the `findMany` date filter. -/
def postsInWindow (s : Store) (a b : Int) : List Post :=
  s.posts.filter (fun p => inWindow a b p.createdAt)

/-- Shared body of the two category-statistics helpers: tally the category
list, then turn each `(category, count)` entry into a record whose
percentage divides by `length || 1`. -/
def categoryEntriesOf (cats : List ActivityCategory) : List CategoryStats :=
  (tally cats).map fun p =>
    { category := p.1, count := p.2,
      percentage := pct p.2 (if cats.length = 0 then 1 else cats.length) }

/-- National category breakdown (`getCategoryStats`): entries for every
in-window post category, sorted descending by count (stable), untruncated. -/
def getCategoryStats (s : Store) (a b : Int) : List CategoryStats :=
  (categoryEntriesOf ((postsInWindow s a b).map Post.category)).insertionSort
    (keyDesc CategoryStats.count)

/-- All hashtag occurrences of the in-window posts, in post order. -/
def allTags (s : Store) (a b : Int) : List String :=
  ((postsInWindow s a b).map Post.hashtags).flatten

/-- Unsorted hashtag entries with the percentage exactly as the source
computes it: the denominator is `reduce((a, b) => a + b, 1)` over the tally
counts, i.e. one plus the total number of tag occurrences. -/
def hashtagEntriesOf (s : Store) (a b : Int) : List HashtagStats :=
  (tally (allTags s a b)).map fun p =>
    { hashtag := p.1, count := p.2,
      percentage :=
        pct p.2 (((tally (allTags s a b)).map Prod.snd).foldl (· + ·) 1) }

/-- Hashtag breakdown (`getHashtagStats`): sorted descending by count
(stable), truncated to the first ten entries. -/
def getHashtagStats (s : Store) (a b : Int) : List HashtagStats :=
  ((hashtagEntriesOf s a b).insertionSort (keyDesc HashtagStats.count)).take 10

/-- Per-location category breakdown (`getCategoryStatsForLocation`): same
percentage rule as the national one, scoped to the given category list,
truncated to the first five entries. -/
def getCategoryStatsForLocation (cats : List ActivityCategory) :
    List CategoryStats :=
  ((categoryEntriesOf cats).insertionSort (keyDesc CategoryStats.count)).take 5

/-- Comments attached to a post (`include: { comments: true }` — no date
filter). -/
def postComments (s : Store) (p : Post) : List Comment :=
  s.comments.filter (fun c => c.postId = p.id)

/-- Reactions attached to a post (no date filter). -/
def postReactions (s : Store) (p : Post) : List Reaction :=
  s.reactions.filter (fun r => r.postId = p.id)

/-- Reposts attached to a post (no date filter). -/
def postReposts (s : Store) (p : Post) : List Repost :=
  s.reposts.filter (fun r => r.postId = p.id)

/-- In-window posts of one location node: the nested `posts` relation with
the date filter, selected by the foreign key of the node's level. -/
def nodePosts (s : Store) (a b : Int) (key : Post → String)
    (node : LocationNode) : List Post :=
  s.posts.filter (fun p => key p = node.id && inWindow a b p.createdAt)

/-- The per-node statistics record built inside the `getLocationStats` loop:
counts over the node's in-window posts, with all comments, reactions and
reposts of those posts counted regardless of their own creation time. -/
def locEntry (s : Store) (a b : Int) (key : Post → String)
    (node : LocationNode) : LocationStats :=
  let posts := nodePosts s a b key node
  let totalPosts := posts.length
  let totalComments := posts.foldl (fun acc p => acc + (postComments s p).length) 0
  let totalReactions := posts.foldl (fun acc p => acc + (postReactions s p).length) 0
  let totalReposts := posts.foldl (fun acc p => acc + (postReposts s p).length) 0
  { name := node.name, id := node.id, totalPosts := totalPosts,
    totalEngagement := totalPosts + totalComments + totalReactions + totalReposts,
    engagementScore :=
      calculateEngagementScore totalPosts totalComments totalReactions totalReposts,
    topCategories := getCategoryStatsForLocation (posts.map Post.category) }

/-- Location statistics for one level (`getLocationStats`): one record per
node (no node is filtered out), sorted descending by engagement score. -/
def getLocationStats (s : Store) (a b : Int) (nodes : List LocationNode)
    (key : Post → String) : List LocationStats :=
  (nodes.map (locEntry s a b key)).insertionSort
    (keyDesc LocationStats.engagementScore)

/-- National totals: four independent date-filtered table counts, each by the
row's own `createdAt`, and their sum. -/
def nationalTotals (s : Store) (a b : Int) : National :=
  let tp := (s.posts.filter (fun p => inWindow a b p.createdAt)).length
  let tc := (s.comments.filter (fun c => inWindow a b c.createdAt)).length
  let tr := (s.reactions.filter (fun r => inWindow a b r.createdAt)).length
  let trp := (s.reposts.filter (fun r => inWindow a b r.createdAt)).length
  { totalPosts := tp, totalComments := tc, totalReactions := tr,
    totalReposts := trp, totalEngagement := tp + tc + tr + trp }

/-- The whole `generateSummary` computation as a pure function of the store,
the window and the clock reading taken for `lastUpdated`. -/
def generateSummary (s : Store) (a b now : Int) : AnalyticsSummary :=
  { periodStart := a, periodEnd := b,
    national := nationalTotals s a b,
    topCategories := getCategoryStats s a b,
    topHashtags := getHashtagStats s a b,
    cellStats := getLocationStats s a b s.cells Post.cellId,
    sectorStats := getLocationStats s a b s.sectors Post.sectorId,
    districtStats := getLocationStats s a b s.districts Post.districtId,
    lastUpdated := now }

/-- The mutable state of an `AnalyticsEngine` object: the record-store handle
received by the private constructor, and the last-success timestamp, which
the constructor initialises to null. -/
structure AnalyticsEngine where
  prisma : Store
  lastUpdated : Option Int
deriving DecidableEq, Repr

/-- The private constructor: stores the handle, leaves `lastUpdated` null. -/
def AnalyticsEngine.new (prisma : Store) : AnalyticsEngine :=
  { prisma := prisma, lastUpdated := none }

/-- The accessor `getLastUpdated`. -/
def AnalyticsEngine.getLastUpdated (e : AnalyticsEngine) : Option Int :=
  e.lastUpdated

/-- A `generateSummary` call on an engine object: compute the summary from
the stored handle and set `lastUpdated` to the clock reading. -/
def AnalyticsEngine.generate (e : AnalyticsEngine) (a b now : Int) :
    AnalyticsSummary × AnalyticsEngine :=
  (generateSummary e.prisma a b now, { e with lastUpdated := some now })

/-- The static `instance` field: null until the first `getInstance` call. -/
abbrev EngineSlot := Option AnalyticsEngine

/-- The static `getInstance` method: construct the engine on the first call,
return the stored instance (ignoring the argument) afterwards. -/
def AnalyticsEngine.getInstance (slot : EngineSlot) (prisma : Store) :
    AnalyticsEngine × EngineSlot :=
  match slot with
  | none => (AnalyticsEngine.new prisma, some (AnalyticsEngine.new prisma))
  | some e => (e, some e)

/-- The static `resetInstance` method. -/
def AnalyticsEngine.resetInstance (_slot : EngineSlot) : EngineSlot :=
  none

/-- Run a sequence of `getInstance` calls, collecting the returned engines. -/
def runGetInstance (slot : EngineSlot) :
    List Store → List AnalyticsEngine × EngineSlot
  | [] => ([], slot)
  | p :: ps =>
    let r := AnalyticsEngine.getInstance slot p
    let rest := runGetInstance r.2 ps
    (r.1 :: rest.1, rest.2)

/-- A record store whose seven read paths (the four national tables and the
three location levels) can each fail, modelling a Prisma client whose
queries may reject. -/
structure FallibleStore (ε : Type) where
  posts : Except ε (List Post)
  comments : Except ε (List Comment)
  reactions : Except ε (List Reaction)
  reposts : Except ε (List Repost)
  cells : Except ε (List LocationNode)
  sectors : Except ε (List LocationNode)
  districts : Except ε (List LocationNode)

/-- Whether every read path of the fallible store succeeds. -/
def FallibleStore.allOk {ε : Type} (fs : FallibleStore ε) : Bool :=
  fs.posts.isOk && fs.comments.isOk && fs.reactions.isOk && fs.reposts.isOk &&
    fs.cells.isOk && fs.sectors.isOk && fs.districts.isOk

/-- An awaited `generateSummary` run against a fallible store: each read is
awaited in turn and the first rejection aborts the whole computation, so the
summary exists only when every read succeeded (all-or-nothing). -/
def generateSummaryF {ε : Type} (fs : FallibleStore ε) (a b now : Int) :
    Except ε AnalyticsSummary := do
  let posts ← fs.posts
  let comments ← fs.comments
  let reactions ← fs.reactions
  let reposts ← fs.reposts
  let cells ← fs.cells
  let sectors ← fs.sectors
  let districts ← fs.districts
  pure (generateSummary
    { posts := posts, comments := comments, reactions := reactions,
      reposts := reposts, cells := cells, sectors := sectors,
      districts := districts } a b now)

/-- A `generateSummary` call on engine state with a fallible store: the
source sets `this.lastUpdated` only after every read has succeeded, so a
failure leaves the stored timestamp unchanged and propagates the error. -/
def runGenerateSummary {ε : Type} (fs : FallibleStore ε) (a b now : Int)
    (lastUpdated : Option Int) :
    Except ε AnalyticsSummary × Option Int :=
  match generateSummaryF fs a b now with
  | Except.ok s => (Except.ok s, some now)
  | Except.error e => (Except.error e, lastUpdated)

/-- A small concrete store used to evaluate the definitions: two posts in
one cell, with hashtag occurrences #a three times and #b once, a comment
created outside the window attached to an in-window post, and a second cell
with no posts at all. -/
def exStore : Store :=
  { posts :=
      [ { id := "p1", category := "CLEANING", hashtags := ["#a", "#a", "#b"],
          createdAt := 1, cellId := "c1", sectorId := "s1", districtId := "d1" },
        { id := "p2", category := "FARMING", hashtags := ["#a"],
          createdAt := 2, cellId := "c1", sectorId := "s1", districtId := "d1" } ],
    comments :=
      [ { id := "cm1", postId := "p1", createdAt := 3 },
        { id := "cm2", postId := "p1", createdAt := 100 } ],
    reactions := [ { id := "r1", postId := "p2", createdAt := 4 } ],
    reposts := [ { id := "rp1", postId := "p1", createdAt := 5 } ],
    cells := [ { id := "c1", name := "Cell One" }, { id := "c2", name := "Cell Two" } ],
    sectors := [ { id := "s1", name := "Sector One" } ],
    districts := [ { id := "d1", name := "District One" } ] }

/-- An empty store, distinct from `exStore`, used to show that later
`getInstance` arguments are ignored. -/
def exStoreB : Store :=
  { posts := [], comments := [], reactions := [], reposts := [],
    cells := [], sectors := [], districts := [] }

/-- A fallible store whose post read rejects and whose other reads succeed. -/
def exFailStore : FallibleStore String :=
  { posts := Except.error "connection lost",
    comments := Except.ok [],
    reactions := Except.ok [],
    reposts := Except.ok [],
    cells := Except.ok [],
    sectors := Except.ok [],
    districts := Except.ok [] }

/-! ## Helper lemmas -/

/-- Closed form of the JS percentage expression as natural-number
arithmetic, for a nonzero denominator. -/
theorem pct_eq (c t : Nat) (ht : t ≠ 0) :
    pct c t = ((200 * c + t) / (2 * t) : Nat) := by
  have h : (c : ℚ) / (t : ℚ) * 100 + 1 / 2 =
      (((200 * c + t : ℕ) : ℤ) : ℚ) / ((2 * t : ℕ) : ℚ) := by
    have ht2 : (t : ℚ) ≠ 0 := Nat.cast_ne_zero.mpr ht
    push_cast
    field_simp
    ring
  rw [pct, jsRound, h, Rat.floor_intCast_div_natCast, Int.ofNat_ediv]

/-- The engagement score as natural-number arithmetic over one hundred. -/
theorem calculateEngagementScore_eq (p c r rp : Nat) :
    calculateEngagementScore p c r rp =
      (((200 * (p * 1 + c * 2 + r * 1 + rp * 3) + (if p = 0 then 1 else p)) /
        (2 * (if p = 0 then 1 else p)) : Nat) : ℚ) / 100 := by
  have hd : (if p = 0 then 1 else p : Nat) ≠ 0 := by
    by_cases hp : p = 0 <;> simp [hp]
  have hw : ((p : ℚ) * 1 + (c : ℚ) * 2 + (r : ℚ) * 1 + (rp : ℚ) * 3) =
      ((p * 1 + c * 2 + r * 1 + rp * 3 : ℕ) : ℚ) := by
    push_cast
    ring
  have hphrase : calculateEngagementScore p c r rp =
      ((pct (p * 1 + c * 2 + r * 1 + rp * 3) (if p = 0 then 1 else p) : ℤ) : ℚ) /
        100 := by
    rw [calculateEngagementScore, round2, pct, hw, div_mul_eq_mul_div,
      mul_comm, mul_div_assoc]
  rw [hphrase, pct_eq _ _ hd, Int.cast_natCast]

/-- Folding addition over a list of naturals starting from `n` adds the sum. -/
theorem foldl_add_eq (l : List Nat) (n : Nat) :
    l.foldl (· + ·) n = n + l.sum := by
  induction l generalizing n with
  | nil => simp
  | cons h t ih => simp [ih, List.sum_cons]; omega

/-- One `bump` step increases the total count by exactly one. -/
theorem bump_snd_sum {α : Type} [DecidableEq α] (m : List (α × Nat)) (a : α) :
    ((bump m a).map Prod.snd).sum = (m.map Prod.snd).sum + 1 := by
  induction m with
  | nil => simp [bump]
  | cons hd tl ih =>
    obtain ⟨k, n⟩ := hd
    by_cases h : k = a
    · simp [bump, h]
      omega
    · simp [bump, h, ih]
      omega

/-- Folding `bump` over a list adds the list length to the total count. -/
theorem foldl_bump_snd_sum {α : Type} [DecidableEq α] (xs : List α)
    (m : List (α × Nat)) :
    (((xs.foldl bump m).map Prod.snd).sum) = (m.map Prod.snd).sum + xs.length := by
  induction xs generalizing m with
  | nil => simp
  | cons x xs ih => simp [List.foldl_cons, ih, bump_snd_sum]; omega

/-- The counts of a tally sum to the length of the tallied list. -/
theorem tally_snd_sum {α : Type} [DecidableEq α] (xs : List α) :
    ((tally xs).map Prod.snd).sum = xs.length := by
  simpa [tally] using foldl_bump_snd_sum xs []

/-- Keys after a `bump` step: the old keys plus the bumped key. -/
theorem mem_bump_keys {α : Type} [DecidableEq α] (m : List (α × Nat)) (a c : α) :
    c ∈ (bump m a).map Prod.fst ↔ c ∈ m.map Prod.fst ∨ c = a := by
  induction m with
  | nil => simp [bump]
  | cons hd tl ih =>
    obtain ⟨k, n⟩ := hd
    by_cases h : k = a
    · subst h
      simp [bump]
      tauto
    · simp [bump, h, ih]
      tauto

/-- Keys after folding `bump`: the old keys plus the traversed elements. -/
theorem mem_foldl_bump_keys {α : Type} [DecidableEq α] (xs : List α)
    (m : List (α × Nat)) (c : α) :
    c ∈ ((xs.foldl bump m).map Prod.fst) ↔ c ∈ m.map Prod.fst ∨ c ∈ xs := by
  induction xs generalizing m with
  | nil => simp
  | cons x xs ih =>
    rw [List.foldl_cons, ih, mem_bump_keys, List.mem_cons]
    tauto

/-- The keys of a tally are exactly the elements of the tallied list. -/
theorem mem_tally_keys {α : Type} [DecidableEq α] (xs : List α) (c : α) :
    c ∈ ((tally xs).map Prod.fst) ↔ c ∈ xs := by
  simpa [tally] using mem_foldl_bump_keys xs [] c

/-- The accumulating loops of `getLocationStats` are sums over the mapped
list. -/
theorem foldl_add_count {α : Type} (f : α → Nat) (l : List α) (acc : Nat) :
    l.foldl (fun a x => a + f x) acc = acc + (l.map f).sum := by
  induction l generalizing acc with
  | nil => simp
  | cons h t ih => simp [ih, List.sum_cons]; omega

/-- Concrete evaluation: the hashtag breakdown of the example store over the
window 0..10 (tag occurrences: #a three times, #b once; denominator 4 + 1). -/
theorem exStore_hashtagStats : getHashtagStats exStore 0 10 =
    [{ hashtag := "#a", count := 3, percentage := 60 },
     { hashtag := "#b", count := 1, percentage := 20 }] := by
  simp [getHashtagStats, hashtagEntriesOf, allTags, postsInWindow, inWindow,
    tally, bump, exStore, pct_eq, List.insertionSort, List.orderedInsert,
    keyDesc]

/-- Concrete evaluation: the national category breakdown of the example
store over the window 0..10. -/
theorem exStore_categoryStats : getCategoryStats exStore 0 10 =
    [{ category := "CLEANING", count := 1, percentage := 50 },
     { category := "FARMING", count := 1, percentage := 50 }] := by
  simp [getCategoryStats, categoryEntriesOf, postsInWindow, inWindow,
    tally, bump, exStore, pct_eq, List.insertionSort, List.orderedInsert,
    keyDesc]

/-- The `posts || 1` denominator of the source is the `max` of the spec. -/
theorem orOne_eq_max (n : Nat) : (if n = 0 then 1 else n) = max n 1 := by
  by_cases hn : n = 0
  · simp [hn]
  · simp [hn]
    omega

/-! ## Claim theorems -/

/-- C2: for all per-node counts, `calculateEngagementScore` equals
`round2((posts*1 + comments*2 + reactions*1 + reposts*3) / max(posts, 1))`
computed as multiply-by-100, `Math.round`, divide-by-100; a node with one
post and nothing else scores 1.0, and a node with 2 posts, 2 comments,
1 reaction and 1 repost scores 5.0. -/
theorem engagementScore_weighted_average (p c r rp : Nat) :
    calculateEngagementScore p c r rp =
      ((jsRound ((((p : ℚ) * 1 + (c : ℚ) * 2 + (r : ℚ) * 1 + (rp : ℚ) * 3) /
        ((max p 1 : ℕ) : ℚ)) * 100) : ℤ) : ℚ) / 100 ∧
    calculateEngagementScore 1 0 0 0 = 1 ∧
    calculateEngagementScore 2 2 1 1 = 5 := by
  refine ⟨?_, ?_, ?_⟩
  · rw [calculateEngagementScore, round2, orOne_eq_max]
  · rw [calculateEngagementScore_eq]
    norm_num
  · rw [calculateEngagementScore_eq]
    norm_num

/-- C3: on an inverted window (start after end) `generateSummary` raises no
error (it is a total function of the store) and returns all-zero national
totals and empty category and hashtag breakdown lists; the location rollup
lists are governed by the separate policy that keeps every node (see the
ranking claim), so "breakdown lists" are the category and hashtag ones. -/
theorem generateSummary_inverted_window (s : Store) (a b now : Int)
    (h : b < a) :
    (generateSummary s a b now).national =
      { totalPosts := 0, totalComments := 0, totalReactions := 0,
        totalReposts := 0, totalEngagement := 0 } ∧
    (generateSummary s a b now).topCategories = [] ∧
    (generateSummary s a b now).topHashtags = [] := by
  have hw : ∀ t : Int, inWindow a b t = false := by
    intro t
    by_cases hta : a ≤ t
    · have htb : ¬ t ≤ b := by omega
      simp [inWindow, htb]
    · simp [inWindow, hta]
  refine ⟨?_, ?_, ?_⟩
  · simp [generateSummary, nationalTotals, hw]
  · simp [generateSummary, getCategoryStats, categoryEntriesOf, postsInWindow,
      tally, hw, List.insertionSort]
  · simp [generateSummary, getHashtagStats, hashtagEntriesOf, allTags,
      postsInWindow, tally, hw, List.insertionSort]

/-- Witness for the inverted-window claim at a concrete store and window. -/
theorem generateSummary_inverted_window_witness :
    (3 : Int) < 5 ∧
    ((generateSummary exStore 5 3 0).national =
      { totalPosts := 0, totalComments := 0, totalReactions := 0,
        totalReposts := 0, totalEngagement := 0 } ∧
    (generateSummary exStore 5 3 0).topCategories = [] ∧
    (generateSummary exStore 5 3 0).topHashtags = []) :=
  ⟨by decide, generateSummary_inverted_window exStore 5 3 0 (by decide)⟩

/-- C7: the hashtag breakdown never exceeds ten entries and is sorted
non-increasing by count. -/
theorem topHashtags_bounded_and_sorted (s : Store) (a b : Int) :
    (getHashtagStats s a b).length ≤ 10 ∧
    (getHashtagStats s a b).Pairwise (fun x y => y.count ≤ x.count) := by
  constructor
  · rw [getHashtagStats]
    simp [List.length_take]
  · have hs :=
      List.sorted_insertionSort (keyDesc HashtagStats.count)
        (hashtagEntriesOf s a b)
    exact List.Pairwise.sublist (List.take_sublist 10 _) hs

/-- C8: with the store unchanged, a second `generateSummary` call with the
same window returns a summary identical in every field except `lastUpdated`:
the engine state read by the computation is only the store handle, so the
first call (which updates only the timestamp) cannot change the second
call's result. -/
theorem generateSummary_repeatable (e : AnalyticsEngine) (a b n1 n2 : Int) :
    ((e.generate a b n1).2.generate a b n2).1.periodStart =
      (e.generate a b n1).1.periodStart ∧
    ((e.generate a b n1).2.generate a b n2).1.periodEnd =
      (e.generate a b n1).1.periodEnd ∧
    ((e.generate a b n1).2.generate a b n2).1.national =
      (e.generate a b n1).1.national ∧
    ((e.generate a b n1).2.generate a b n2).1.topCategories =
      (e.generate a b n1).1.topCategories ∧
    ((e.generate a b n1).2.generate a b n2).1.topHashtags =
      (e.generate a b n1).1.topHashtags ∧
    ((e.generate a b n1).2.generate a b n2).1.cellStats =
      (e.generate a b n1).1.cellStats ∧
    ((e.generate a b n1).2.generate a b n2).1.sectorStats =
      (e.generate a b n1).1.sectorStats ∧
    ((e.generate a b n1).2.generate a b n2).1.districtStats =
      (e.generate a b n1).1.districtStats ∧
    (e.generate a b n1).1.lastUpdated = n1 ∧
    ((e.generate a b n1).2.generate a b n2).1.lastUpdated = n2 :=
  ⟨rfl, rfl, rfl, rfl, rfl, rfl, rfl, rfl, rfl, rfl⟩

/-- Every `getInstance` call on an occupied slot returns the stored engine
and leaves the slot unchanged. -/
theorem runGetInstance_some (e : AnalyticsEngine) (ps : List Store) :
    (runGetInstance (some e) ps).1 = ps.map (fun _ => e) ∧
    (runGetInstance (some e) ps).2 = some e := by
  induction ps with
  | nil => exact ⟨rfl, rfl⟩
  | cons q qs ih => simp [runGetInstance, AnalyticsEngine.getInstance, ih]

/-- C10: starting from an empty slot, no engine exists before the first
call; the first `getInstance` call constructs the engine from its own
argument, and every call in the sequence returns that same engine — the
arguments of all later calls are ignored. -/
theorem getInstance_singleton (p : Store) (ps : List Store) :
    (runGetInstance none ([] : List Store)).2 = none ∧
    (∀ e ∈ (runGetInstance none (p :: ps)).1, e = AnalyticsEngine.new p) ∧
    (runGetInstance none (p :: ps)).2 = some (AnalyticsEngine.new p) := by
  have hfirst : runGetInstance none (p :: ps) =
      ((AnalyticsEngine.new p) :: (runGetInstance (some (AnalyticsEngine.new p)) ps).1,
        (runGetInstance (some (AnalyticsEngine.new p)) ps).2) := by
    simp [runGetInstance, AnalyticsEngine.getInstance, AnalyticsEngine.new]
  refine ⟨rfl, ?_, ?_⟩
  · intro e he
    rw [hfirst] at he
    rcases List.mem_cons.mp he with h | h
    · exact h
    · rw [(runGetInstance_some (AnalyticsEngine.new p) ps).1] at h
      exact (List.mem_map.mp h).choose_spec.2.symm
  · rw [hfirst]
    exact (runGetInstance_some (AnalyticsEngine.new p) ps).2

/-- Witness for the singleton claim: two calls, the second with a different
store argument, both return the engine built from the first argument. -/
theorem getInstance_singleton_witness :
    AnalyticsEngine.new exStore ∈ (runGetInstance none [exStore, exStoreB]).1 ∧
    AnalyticsEngine.new exStore = AnalyticsEngine.new exStore :=
  ⟨by decide, (getInstance_singleton exStore [exStoreB]).2.1
    (AnalyticsEngine.new exStore) (by decide)⟩

/-- C9: a `generateSummary` run against a fallible store succeeds exactly
when every underlying read succeeds; on failure the error returned is one of
the reads' own errors (propagated unmodified), no summary is produced, and
the stored `lastUpdated` timestamp is unchanged; on success the timestamp
becomes the clock reading of the successful call; and a freshly constructed
engine reports a null `getLastUpdated` until then. -/
theorem generateSummary_error_policy {ε : Type} (fs : FallibleStore ε)
    (a b now : Int) (lu : Option Int) (st : Store) :
    ((runGenerateSummary fs a b now lu).1.isOk = fs.allOk) ∧
    (fs.allOk = false →
      (runGenerateSummary fs a b now lu).2 = lu ∧
      ∃ err, (runGenerateSummary fs a b now lu).1 = Except.error err ∧
        (fs.posts = Except.error err ∨ fs.comments = Except.error err ∨
         fs.reactions = Except.error err ∨ fs.reposts = Except.error err ∨
         fs.cells = Except.error err ∨ fs.sectors = Except.error err ∨
         fs.districts = Except.error err)) ∧
    (fs.allOk = true →
      (runGenerateSummary fs a b now lu).2 = some now ∧
      ∃ sum, (runGenerateSummary fs a b now lu).1 = Except.ok sum) ∧
    (AnalyticsEngine.new st).getLastUpdated = none := by
  obtain ⟨p, c, r, rp, ce, se, de⟩ := fs
  cases p with
  | error e =>
    simp [runGenerateSummary, generateSummaryF, FallibleStore.allOk,
      Except.isOk, Except.toBool, Except.bind, bind, pure, Except.pure,
      AnalyticsEngine.new, AnalyticsEngine.getLastUpdated]
  | ok pv =>
  cases c with
  | error e =>
    simp [runGenerateSummary, generateSummaryF, FallibleStore.allOk,
      Except.isOk, Except.toBool, Except.bind, bind, pure, Except.pure,
      AnalyticsEngine.new, AnalyticsEngine.getLastUpdated]
  | ok cv =>
  cases r with
  | error e =>
    simp [runGenerateSummary, generateSummaryF, FallibleStore.allOk,
      Except.isOk, Except.toBool, Except.bind, bind, pure, Except.pure,
      AnalyticsEngine.new, AnalyticsEngine.getLastUpdated]
  | ok rv =>
  cases rp with
  | error e =>
    simp [runGenerateSummary, generateSummaryF, FallibleStore.allOk,
      Except.isOk, Except.toBool, Except.bind, bind, pure, Except.pure,
      AnalyticsEngine.new, AnalyticsEngine.getLastUpdated]
  | ok rpv =>
  cases ce with
  | error e =>
    simp [runGenerateSummary, generateSummaryF, FallibleStore.allOk,
      Except.isOk, Except.toBool, Except.bind, bind, pure, Except.pure,
      AnalyticsEngine.new, AnalyticsEngine.getLastUpdated]
  | ok cev =>
  cases se with
  | error e =>
    simp [runGenerateSummary, generateSummaryF, FallibleStore.allOk,
      Except.isOk, Except.toBool, Except.bind, bind, pure, Except.pure,
      AnalyticsEngine.new, AnalyticsEngine.getLastUpdated]
  | ok sev =>
  cases de with
  | error e =>
    simp [runGenerateSummary, generateSummaryF, FallibleStore.allOk,
      Except.isOk, Except.toBool, Except.bind, bind, pure, Except.pure,
      AnalyticsEngine.new, AnalyticsEngine.getLastUpdated]
  | ok dev =>
    simp [runGenerateSummary, generateSummaryF, FallibleStore.allOk,
      Except.isOk, Except.toBool, Except.bind, bind, pure, Except.pure,
      AnalyticsEngine.new, AnalyticsEngine.getLastUpdated]

/-- Witness for the error-policy claim: the store whose post read rejects
leaves a null timestamp untouched. -/
theorem generateSummary_error_policy_witness :
    exFailStore.allOk = false ∧
    ((runGenerateSummary exFailStore 0 1 5 none).2 = none ∧
      ∃ err, (runGenerateSummary exFailStore 0 1 5 none).1 = Except.error err ∧
        (exFailStore.posts = Except.error err ∨
         exFailStore.comments = Except.error err ∨
         exFailStore.reactions = Except.error err ∨
         exFailStore.reposts = Except.error err ∨
         exFailStore.cells = Except.error err ∨
         exFailStore.sectors = Except.error err ∨
         exFailStore.districts = Except.error err)) :=
  ⟨by decide,
    (generateSummary_error_policy exFailStore 0 1 5 none exStoreB).2.1
      (by decide)⟩

/-- C1 counterexample: in the example store the window holds four tag
occurrences (#a three, #b one), so the claimed denominator max(4, 1) = 4
would give 75 and 25; the source seeds its reduce with 1 and divides by 5,
reporting 60 and 20 instead. -/
theorem hashtagPercentage_counterexample :
    getHashtagStats exStore 0 10 =
      [{ hashtag := "#a", count := 3, percentage := 60 },
       { hashtag := "#b", count := 1, percentage := 20 }] ∧
    getHashtagStats exStore 0 10 ≠
      [{ hashtag := "#a", count := 3, percentage := 75 },
       { hashtag := "#b", count := 1, percentage := 25 }] := by
  refine ⟨exStore_hashtagStats, ?_⟩
  rw [exStore_hashtagStats]
  decide

/-- C1 amended: every hashtag entry has
`percentage = round(count / (1 + total tag occurrences in the window) * 100)`
— the reduce over the per-tag counts starts from 1, so the denominator is
one more than the sum of all tag occurrences (and 1 for an empty window). -/
theorem hashtagPercentage_amended (s : Store) (a b : Int) (e : HashtagStats)
    (he : e ∈ getHashtagStats s a b) :
    e.percentage = jsRound ((e.count : ℚ) /
      ((1 + (allTags s a b).length : ℕ) : ℚ) * 100) := by
  have h1 : e ∈ hashtagEntriesOf s a b := by
    rw [getHashtagStats] at he
    exact (List.mem_insertionSort _).mp (List.mem_of_mem_take he)
  obtain ⟨p, hp, hpe⟩ := List.mem_map.mp h1
  subst hpe
  show pct p.2 (((tally (allTags s a b)).map Prod.snd).foldl (· + ·) 1) = _
  have htot : ((tally (allTags s a b)).map Prod.snd).foldl (· + ·) 1 =
      1 + (allTags s a b).length := by
    rw [foldl_add_eq, tally_snd_sum]
  rw [htot]
  rfl

/-- Witness for the amended hashtag-percentage rule at the example store. -/
theorem hashtagPercentage_amended_witness :
    ({ hashtag := "#a", count := 3, percentage := 60 } : HashtagStats) ∈
      getHashtagStats exStore 0 10 ∧
    ({ hashtag := "#a", count := 3, percentage := 60 } : HashtagStats).percentage =
      jsRound ((({ hashtag := "#a", count := 3, percentage := 60 } :
        HashtagStats).count : ℚ) /
        ((1 + (allTags exStore 0 10).length : ℕ) : ℚ) * 100) :=
  ⟨by simp [exStore_hashtagStats],
    hashtagPercentage_amended exStore 0 10 _ (by simp [exStore_hashtagStats])⟩

/-- The per-level location list is sorted non-increasing by engagement
score. -/
theorem getLocationStats_sorted (s : Store) (a b : Int)
    (nodes : List LocationNode) (key : Post → String) :
    (getLocationStats s a b nodes key).Pairwise
      (fun x y => y.engagementScore ≤ x.engagementScore) :=
  List.sorted_insertionSort (keyDesc LocationStats.engagementScore)
    (nodes.map (locEntry s a b key))

/-- Every node's record appears in the per-level location list. -/
theorem locEntry_mem_getLocationStats (s : Store) (a b : Int)
    (nodes : List LocationNode) (key : Post → String) (node : LocationNode)
    (hn : node ∈ nodes) :
    locEntry s a b key node ∈ getLocationStats s a b nodes key := by
  rw [getLocationStats]
  exact (List.mem_insertionSort _).mpr (List.mem_map_of_mem _ hn)

/-- A node with no in-window posts gets score zero and no categories. -/
theorem locEntry_zeroPosts (s : Store) (a b : Int) (key : Post → String)
    (node : LocationNode) (h : nodePosts s a b key node = []) :
    (locEntry s a b key node).engagementScore = 0 ∧
    (locEntry s a b key node).topCategories = [] := by
  rw [locEntry, h]
  refine ⟨?_, ?_⟩
  · show calculateEngagementScore 0 0 0 0 = 0
    rw [calculateEngagementScore_eq]
    norm_num
  · show getCategoryStatsForLocation [] = []
    rw [getCategoryStatsForLocation]
    simp [categoryEntriesOf, tally, List.insertionSort]

/-- C4: each of the three per-level statistics lists is sorted
non-increasing by engagement score and contains the record of every node at
its level; a node with zero in-window posts is not filtered out — its record
has engagement score zero and an empty category list. -/
theorem locationStats_ranked_and_complete (s : Store) (a b now : Int) :
    ((generateSummary s a b now).cellStats.Pairwise
        (fun x y => y.engagementScore ≤ x.engagementScore) ∧
      ∀ node ∈ s.cells,
        locEntry s a b Post.cellId node ∈ (generateSummary s a b now).cellStats) ∧
    ((generateSummary s a b now).sectorStats.Pairwise
        (fun x y => y.engagementScore ≤ x.engagementScore) ∧
      ∀ node ∈ s.sectors,
        locEntry s a b Post.sectorId node ∈
          (generateSummary s a b now).sectorStats) ∧
    ((generateSummary s a b now).districtStats.Pairwise
        (fun x y => y.engagementScore ≤ x.engagementScore) ∧
      ∀ node ∈ s.districts,
        locEntry s a b Post.districtId node ∈
          (generateSummary s a b now).districtStats) ∧
    (∀ (key : Post → String) (node : LocationNode),
      nodePosts s a b key node = [] →
      (locEntry s a b key node).engagementScore = 0 ∧
      (locEntry s a b key node).topCategories = []) := by
  refine ⟨⟨?_, ?_⟩, ⟨?_, ?_⟩, ⟨?_, ?_⟩, ?_⟩
  · exact getLocationStats_sorted s a b s.cells Post.cellId
  · exact fun node hn => locEntry_mem_getLocationStats s a b s.cells Post.cellId node hn
  · exact getLocationStats_sorted s a b s.sectors Post.sectorId
  · exact fun node hn =>
      locEntry_mem_getLocationStats s a b s.sectors Post.sectorId node hn
  · exact getLocationStats_sorted s a b s.districts Post.districtId
  · exact fun node hn =>
      locEntry_mem_getLocationStats s a b s.districts Post.districtId node hn
  · exact fun key node h => locEntry_zeroPosts s a b key node h

/-- Witness for the location-ranking claim: the zero-post second cell of the
example store appears in the cell list with score zero and no categories. -/
theorem locationStats_ranked_and_complete_witness :
    (({ id := "c2", name := "Cell Two" } : LocationNode) ∈ exStore.cells ∧
      locEntry exStore 0 10 Post.cellId { id := "c2", name := "Cell Two" } ∈
        (generateSummary exStore 0 10 0).cellStats) ∧
    (nodePosts exStore 0 10 Post.cellId { id := "c2", name := "Cell Two" } = [] ∧
      (locEntry exStore 0 10 Post.cellId
        { id := "c2", name := "Cell Two" }).engagementScore = 0 ∧
      (locEntry exStore 0 10 Post.cellId
        { id := "c2", name := "Cell Two" }).topCategories = []) :=
  ⟨⟨by decide,
    (locationStats_ranked_and_complete exStore 0 10 0).1.2 _ (by decide)⟩,
   ⟨by decide,
    (locationStats_ranked_and_complete exStore 0 10 0).2.2.2 Post.cellId
      { id := "c2", name := "Cell Two" } (by decide)⟩⟩

/-- C5: the national `totalEngagement` is the sum of the four national
counts, each of which counts rows by the row's own `createdAt` inside the
window; and each location record's `totalEngagement` is the sum of its four
per-node counts, where the comments, reactions and reposts of every
in-window post are counted with no date filter of their own. -/
theorem totalEngagement_sums (s : Store) (a b now : Int) :
    ((generateSummary s a b now).national.totalEngagement =
      (generateSummary s a b now).national.totalPosts +
      (generateSummary s a b now).national.totalComments +
      (generateSummary s a b now).national.totalReactions +
      (generateSummary s a b now).national.totalReposts) ∧
    ((generateSummary s a b now).national.totalPosts =
      (s.posts.filter (fun p => inWindow a b p.createdAt)).length ∧
     (generateSummary s a b now).national.totalComments =
      (s.comments.filter (fun c => inWindow a b c.createdAt)).length ∧
     (generateSummary s a b now).national.totalReactions =
      (s.reactions.filter (fun r => inWindow a b r.createdAt)).length ∧
     (generateSummary s a b now).national.totalReposts =
      (s.reposts.filter (fun r => inWindow a b r.createdAt)).length) ∧
    (∀ (key : Post → String) (node : LocationNode),
      (locEntry s a b key node).totalEngagement =
        (nodePosts s a b key node).length +
        ((nodePosts s a b key node).map
          (fun p => (postComments s p).length)).sum +
        ((nodePosts s a b key node).map
          (fun p => (postReactions s p).length)).sum +
        ((nodePosts s a b key node).map
          (fun p => (postReposts s p).length)).sum) := by
  refine ⟨rfl, ⟨rfl, rfl, rfl, rfl⟩, ?_⟩
  intro key node
  show (nodePosts s a b key node).length +
      ((nodePosts s a b key node).foldl
        (fun acc p => acc + (postComments s p).length) 0) +
      ((nodePosts s a b key node).foldl
        (fun acc p => acc + (postReactions s p).length) 0) +
      ((nodePosts s a b key node).foldl
        (fun acc p => acc + (postReposts s p).length) 0) = _
  rw [foldl_add_count, foldl_add_count, foldl_add_count]
  omega

/-- Every unsorted category entry carries the shared percentage rule with
the `|| 1` denominator written as a `max`. -/
theorem categoryEntriesOf_percentage (cats : List ActivityCategory)
    (e : CategoryStats) (he : e ∈ categoryEntriesOf cats) :
    e.percentage = jsRound ((e.count : ℚ) /
      ((max cats.length 1 : ℕ) : ℚ) * 100) := by
  obtain ⟨p, hp, hpe⟩ := List.mem_map.mp he
  subst hpe
  show pct p.2 (if cats.length = 0 then 1 else cats.length) = _
  rw [orOne_eq_max]
  rfl

/-- C6: the national category breakdown contains exactly the categories
with at least one in-window post (no truncation), each entry's percentage
divides by `max(number of in-window posts, 1)`; the list is sorted
descending by count with ties kept in the first-encounter order of the
unsorted entry list; and every per-node breakdown obeys the same percentage
rule over the node's own category list, truncated to at most five entries. -/
theorem categoryStats_spec (s : Store) (a b : Int) :
    (∀ c : ActivityCategory,
      (∃ e ∈ getCategoryStats s a b, e.category = c) ↔
        c ∈ (postsInWindow s a b).map Post.category) ∧
    (∀ e ∈ getCategoryStats s a b,
      e.percentage = jsRound ((e.count : ℚ) /
        ((max (postsInWindow s a b).length 1 : ℕ) : ℚ) * 100)) ∧
    (getCategoryStats s a b).Pairwise (fun x y => y.count ≤ x.count) ∧
    (∀ e1 e2 : CategoryStats, e1.count = e2.count →
      [e1, e2].Sublist
        (categoryEntriesOf ((postsInWindow s a b).map Post.category)) →
      [e1, e2].Sublist (getCategoryStats s a b)) ∧
    (∀ cats : List ActivityCategory,
      (getCategoryStatsForLocation cats).length ≤ 5 ∧
      ∀ e ∈ getCategoryStatsForLocation cats,
        e.percentage = jsRound ((e.count : ℚ) /
          ((max cats.length 1 : ℕ) : ℚ) * 100)) := by
  refine ⟨?_, ?_, ?_, ?_, ?_⟩
  · intro c
    constructor
    · rintro ⟨e, he, rfl⟩
      have he2 : e ∈ categoryEntriesOf ((postsInWindow s a b).map Post.category) := by
        rw [getCategoryStats] at he
        exact (List.mem_insertionSort _).mp he
      obtain ⟨p, hp, hpe⟩ := List.mem_map.mp he2
      subst hpe
      exact (mem_tally_keys _ _).mp (List.mem_map_of_mem _ hp)
    · intro hc
      obtain ⟨p, hp, hpc⟩ :=
        List.mem_map.mp ((mem_tally_keys _ _).mpr hc)
      refine ⟨⟨p.1, p.2,
        pct p.2
          (if ((postsInWindow s a b).map Post.category).length = 0 then 1
           else ((postsInWindow s a b).map Post.category).length)⟩, ?_, hpc⟩
      rw [getCategoryStats]
      exact (List.mem_insertionSort _).mpr (List.mem_map_of_mem _ hp)
  · intro e he
    have he2 : e ∈ categoryEntriesOf ((postsInWindow s a b).map Post.category) := by
      rw [getCategoryStats] at he
      exact (List.mem_insertionSort _).mp he
    have h := categoryEntriesOf_percentage _ e he2
    rwa [List.length_map] at h
  · exact List.sorted_insertionSort (keyDesc CategoryStats.count) _
  · intro e1 e2 hcnt hsub
    exact List.pair_sublist_insertionSort (le_of_eq hcnt.symm) hsub
  · intro cats
    constructor
    · rw [getCategoryStatsForLocation]
      simp [List.length_take]
    · intro e he
      have he2 : e ∈ categoryEntriesOf cats := by
        rw [getCategoryStatsForLocation] at he
        exact (List.mem_insertionSort _).mp (List.mem_of_mem_take he)
      exact categoryEntriesOf_percentage cats e he2

/-- Witness for the category-breakdown claim at the example store. -/
theorem categoryStats_spec_witness :
    ({ category := "CLEANING", count := 1, percentage := 50 } : CategoryStats) ∈
      getCategoryStats exStore 0 10 ∧
    ({ category := "CLEANING", count := 1, percentage := 50 } :
        CategoryStats).percentage =
      jsRound ((({ category := "CLEANING", count := 1, percentage := 50 } :
        CategoryStats).count : ℚ) /
        ((max (postsInWindow exStore 0 10).length 1 : ℕ) : ℚ) * 100) :=
  ⟨by simp [exStore_categoryStats],
    (categoryStats_spec exStore 0 10).2.1 _ (by simp [exStore_categoryStats])⟩
